import Mathlib

/-!
Verification of the generation-job subsystem of the higgsfield backend.

The Python source is shallowly embedded: wall-clock instants and float
arithmetic become `ℚ`, database rows become structures, the poller tick
(`app/workers/tasks.py`, `_poll_generation_async`) becomes a pure function
from the loaded row plus the tick's environment (provider responses, clock,
random draw) to the committed row plus its observable effects.
-/

/-- Python's `int(x)` on a float/Rat: truncation toward zero. -/
def pyTrunc (q : ℚ) : ℤ :=
  if q < 0 then ⌈q⌉ else ⌊q⌋

/-- `app/workers/tasks.py`, `next_interval_ms`: exponential backoff with
jitter.  `base = min_ms * (2**attempt)`, `capped = min(base, max_ms)`,
`jitter_range = capped * jitter`, result `int(capped + uniform(-jitter_range,
jitter_range))`.  The uniform draw is exposed as `u ∈ [-1, 1]`, the drawn
value being `u * jitter_range`. -/
def next_interval_ms (attempt min_ms max_ms : ℕ) (jitter u : ℚ) : ℤ :=
  let base : ℕ := min_ms * 2 ^ attempt
  let capped : ℕ := min base max_ms
  let jitter_range : ℚ := (capped : ℚ) * jitter
  pyTrunc ((capped : ℚ) + u * jitter_range)

/-- `max(1, int(interval_ms / 1000))` — the worker's conversion of a
millisecond interval to a whole-second scheduler countdown
(`app/workers/tasks.py` lines 263, 288, 309, 350). -/
def delay_seconds_from_ms (interval_ms : ℤ) : ℤ :=
  max 1 (pyTrunc ((interval_ms : ℚ) / 1000))

/-- `max(1, int((next_poll_at - now).total_seconds()))` — the worker's
conversion of a time delta (seconds, exact rational) to a scheduler
countdown (`app/workers/tasks.py` lines 156, 163). -/
def delay_seconds_from_delta (delta : ℚ) : ℤ :=
  max 1 (pyTrunc delta)

/-- `app/api/routes/jobs.py`, `get_job` lines 67-71: `retry_after_seconds`
from the delta `next_poll_at - now` (in seconds), `None` when `next_poll_at`
is null: default `10`, else `max(1, min(int(delta) + 1, 10))`. -/
def retry_after_seconds (next_poll_delta : Option ℚ) : ℤ :=
  match next_poll_delta with
  | none => 10
  | some delta => max 1 (min (pyTrunc delta + 1) 10)

theorem pyTrunc_of_nonneg {q : ℚ} (h : 0 ≤ q) : pyTrunc q = ⌊q⌋ := by
  simp [pyTrunc, not_lt.mpr h]

theorem pyTrunc_intCast (z : ℤ) : pyTrunc (z : ℚ) = z := by
  unfold pyTrunc
  split <;> simp

/-- `⌈d⌉ = ⌊d⌋ + 1` for non-integral `d`. -/
theorem ceil_eq_floor_add_one_of_lt {d : ℚ} (h : (⌊d⌋ : ℚ) < d) :
    ⌈d⌉ = ⌊d⌋ + 1 := by
  refine le_antisymm (Int.ceil_le_floor_add_one d) ?h
  have h1 : ⌊d⌋ < ⌈d⌉ := Int.lt_ceil.mpr h
  omega

/-- C7 (counterexample): with `min_ms = 1001`, `max_ms = 2000`,
`jitter = 1/5` (all satisfying the claim's side conditions) and the legal
uniform draw `u = -1`, the computed interval falls strictly below
`min_ms * (1 - jitter)`: Python's `int()` truncates the jittered value, so
the closed interval of the claim is missed by a fraction of a millisecond. -/
theorem C7_backoff_bounds_counterexample :
    0 < (1001 : ℕ) ∧ (1001 : ℕ) ≤ 2000 ∧ (0 : ℚ) ≤ 1 / 5 ∧ (1 / 5 : ℚ) < 1 ∧
      (-1 : ℚ) ≤ -1 ∧ (-1 : ℚ) ≤ 1 ∧
      ((next_interval_ms 0 1001 2000 (1 / 5) (-1) : ℤ) : ℚ) < 1001 * (1 - 1 / 5) := by
  norm_num [next_interval_ms, pyTrunc]

/-- C7 (amended): for every attempt `n ≥ 0` and legal uniform draw, the
computed interval lies in the half-open interval
`(min_ms * (1 - jitter) - 1, max_ms * (1 + jitter)]` — the lower endpoint is
weakened by one millisecond because `int()` truncates. -/
theorem next_interval_ms_bounds (attempt min_ms max_ms : ℕ) (jitter u : ℚ)
    (hmin : 0 < min_ms) (hmm : min_ms ≤ max_ms)
    (hj0 : 0 ≤ jitter) (hj1 : jitter < 1) (hu0 : -1 ≤ u) (hu1 : u ≤ 1) :
    (min_ms : ℚ) * (1 - jitter) - 1 < ((next_interval_ms attempt min_ms max_ms jitter u : ℤ) : ℚ) ∧
      ((next_interval_ms attempt min_ms max_ms jitter u : ℤ) : ℚ) ≤ (max_ms : ℚ) * (1 + jitter) := by
  simp only [next_interval_ms]
  set capped : ℕ := min (min_ms * 2 ^ attempt) max_ms with hcap
  have h2p : 1 ≤ 2 ^ attempt := Nat.one_le_two_pow
  have hc1 : min_ms ≤ capped := by
    have hb : min_ms * 1 ≤ min_ms * 2 ^ attempt := Nat.mul_le_mul (Nat.le_refl min_ms) h2p
    simp only [Nat.mul_one] at hb
    exact Nat.le_min.mpr ⟨hb, hmm⟩
  have hcQ1 : (min_ms : ℚ) ≤ (capped : ℚ) := by exact_mod_cast hc1
  have hcQ2 : (capped : ℚ) ≤ (max_ms : ℚ) := by
    exact_mod_cast Nat.min_le_right (min_ms * 2 ^ attempt) max_ms
  have hc0 : (0 : ℚ) ≤ (capped : ℚ) := by positivity
  set v : ℚ := (capped : ℚ) + u * ((capped : ℚ) * jitter) with hv
  have hcj : (0 : ℚ) ≤ (capped : ℚ) * jitter := by positivity
  have hub : u * ((capped : ℚ) * jitter) ≤ (capped : ℚ) * jitter := by nlinarith
  have hlb : -((capped : ℚ) * jitter) ≤ u * ((capped : ℚ) * jitter) := by nlinarith
  have hlow : (capped : ℚ) * (1 - jitter) ≤ v := by
    have hr : (capped : ℚ) * (1 - jitter) = (capped : ℚ) - (capped : ℚ) * jitter := by ring
    rw [hv, hr]
    linarith
  have hhigh : v ≤ (capped : ℚ) * (1 + jitter) := by
    have hr : (capped : ℚ) * (1 + jitter) = (capped : ℚ) + (capped : ℚ) * jitter := by ring
    rw [hv, hr]
    linarith
  have hv0 : 0 ≤ v := by nlinarith
  rw [pyTrunc_of_nonneg hv0]
  constructor
  · have h1 : v - 1 < (⌊v⌋ : ℚ) := Int.sub_one_lt_floor v
    have h2 : (min_ms : ℚ) * (1 - jitter) ≤ (capped : ℚ) * (1 - jitter) := by nlinarith
    linarith
  · have h1 : (⌊v⌋ : ℚ) ≤ v := Int.floor_le v
    have h2 : (capped : ℚ) * (1 + jitter) ≤ (max_ms : ℚ) * (1 + jitter) := by nlinarith
    linarith

/-- Witness for `next_interval_ms_bounds` at the default configuration. -/
theorem next_interval_ms_bounds_witness :
    (0 < (1000 : ℕ) ∧ (1000 : ℕ) ≤ 30000 ∧ (0 : ℚ) ≤ 1 / 5 ∧ (1 / 5 : ℚ) < 1 ∧
        (-1 : ℚ) ≤ 1 ∧ (1 : ℚ) ≤ 1) ∧
      ((1000 : ℚ) * (1 - 1 / 5) - 1 < ((next_interval_ms 3 1000 30000 (1 / 5) 1 : ℤ) : ℚ) ∧
        ((next_interval_ms 3 1000 30000 (1 / 5) 1 : ℤ) : ℚ) ≤ (30000 : ℚ) * (1 + 1 / 5)) :=
  ⟨by norm_num,
    next_interval_ms_bounds 3 1000 30000 (1 / 5) 1 (by norm_num) (by norm_num)
      (by norm_num) (by norm_num) (by norm_num) (by norm_num)⟩

/-- C8 (counterexample): a 2500 ms interval is converted to a 2-second
scheduler delay by the worker, while the claimed ceiling conversion would
give 3 seconds. -/
theorem C8_delay_rounding_counterexample :
    delay_seconds_from_ms 2500 = 2 ∧ ⌈(2500 : ℚ) / 1000⌉ = 3 ∧
      delay_seconds_from_ms 2500 ≠ ⌈(2500 : ℚ) / 1000⌉ := by
  have hc : ⌈(2500 : ℚ) / 1000⌉ = 3 := by
    rw [ceil_eq_floor_add_one_of_lt (by norm_num)]
    norm_num
  refine ⟨by norm_num [delay_seconds_from_ms, pyTrunc], hc, ?p⟩
  rw [hc]
  norm_num [delay_seconds_from_ms, pyTrunc]

/-- C8 (amended): the worker converts a backoff interval to a whole-second
delay by truncation (floor division by 1000) clamped below at 1 second, not
by ceiling; equivalently, a nonnegative delta in seconds is floored.  A
2500 ms interval yields a 2-second delay. -/
theorem delay_seconds_trunc (m : ℤ) (d : ℚ) (hm : 0 ≤ m) (hd : 0 ≤ d) :
    delay_seconds_from_ms m = max 1 (m / 1000) ∧
      delay_seconds_from_delta d = max 1 ⌊d⌋ ∧
      delay_seconds_from_ms 2500 = 2 := by
  refine ⟨?p1, ?p2, by norm_num [delay_seconds_from_ms, pyTrunc]⟩
  · unfold delay_seconds_from_ms
    have hq : (0 : ℚ) ≤ (m : ℚ) / 1000 := by positivity
    rw [pyTrunc_of_nonneg hq]
    have := Rat.floor_intCast_div_natCast m 1000
    push_cast at this
    rw [this]
  · unfold delay_seconds_from_delta
    rw [pyTrunc_of_nonneg hd]

/-- Witness for `delay_seconds_trunc` at `m = 2500`, `d = 5/2`. -/
theorem delay_seconds_trunc_witness :
    ((0 : ℤ) ≤ 2500 ∧ (0 : ℚ) ≤ 5 / 2) ∧
      (delay_seconds_from_ms 2500 = max 1 (2500 / 1000) ∧
        delay_seconds_from_delta (5 / 2) = max 1 ⌊(5 / 2 : ℚ)⌋ ∧
        delay_seconds_from_ms 2500 = 2) :=
  ⟨by norm_num, delay_seconds_trunc 2500 (5 / 2) (by norm_num) (by norm_num)⟩

/-- C9 (counterexample): when `next_poll_at - now` is exactly 3 seconds the
endpoint returns `retry_after_seconds = 4`, while the claimed
`clamp(ceil(delta), 1, 10)` formula gives 3. -/
theorem C9_retry_after_counterexample :
    retry_after_seconds (some 3) = 4 ∧ max 1 (min ⌈(3 : ℚ)⌉ 10) = 3 ∧
      retry_after_seconds (some 3) ≠ max 1 (min ⌈(3 : ℚ)⌉ 10) := by
  norm_num [retry_after_seconds, pyTrunc]

/-- C9 (amended): the endpoint computes `clamp(trunc(delta) + 1, 1, 10)`
when `next_poll_at` is non-null and 10 when it is null.  This agrees with
`clamp(ceil(delta), 1, 10)` whenever the nonnegative delta is not a whole
number of seconds; at an exact whole number `k ≥ 0` it returns
`min(k + 1, 10)` instead of `clamp(k, 1, 10)`. -/
theorem retry_after_seconds_spec (d : ℚ) (k : ℤ) (hd : 0 ≤ d) (hk : 0 ≤ k) :
    ((⌊d⌋ : ℚ) < d → retry_after_seconds (some d) = max 1 (min ⌈d⌉ 10)) ∧
      retry_after_seconds (some (k : ℚ)) = max 1 (min (k + 1) 10) ∧
      retry_after_seconds none = 10 := by
  refine ⟨?p1, ?p2, rfl⟩
  · intro h
    simp only [retry_after_seconds]
    rw [pyTrunc_of_nonneg hd, ceil_eq_floor_add_one_of_lt h]
  · simp only [retry_after_seconds]
    rw [pyTrunc_intCast]

/-- Witness for `retry_after_seconds_spec` at `d = 5/2`, `k = 3`. -/
theorem retry_after_seconds_spec_witness :
    ((0 : ℚ) ≤ 5 / 2 ∧ (0 : ℤ) ≤ 3) ∧
      (((⌊(5 / 2 : ℚ)⌋ : ℚ) < 5 / 2 →
          retry_after_seconds (some (5 / 2)) = max 1 (min ⌈(5 / 2 : ℚ)⌉ 10)) ∧
        retry_after_seconds (some ((3 : ℤ) : ℚ)) = max 1 (min ((3 : ℤ) + 1) 10) ∧
        retry_after_seconds none = 10) :=
  ⟨by norm_num, retry_after_seconds_spec (5 / 2) 3 (by norm_num) (by norm_num)⟩

/-! ## Provider adapter (`app/services/provider_higgsfield.py`) -/

/-- `ProviderError(message, code, retryable)` — the adapter's typed error.
`RateLimitError` and `InvalidParamsError` are the subclasses specialised to
`("RATE_LIMITED", retryable)` and `("INVALID_PARAMS", non-retryable)`. -/
structure ProviderError where
  message : String
  code : String
  retryable : Bool
  deriving Repr, DecidableEq

/-- `RateLimitError(message)`. -/
def RateLimitError (message : String) : ProviderError :=
  ⟨message, "RATE_LIMITED", true⟩

/-- `InvalidParamsError(message)`. -/
def InvalidParamsError (message : String) : ProviderError :=
  ⟨message, "INVALID_PARAMS", false⟩

/-- Python's `a or b` on two optional strings: `None` and `""` are falsy. -/
def py_or (a b : Option String) : Option String :=
  match a with
  | some s => if s = "" then b else some s
  | none => b

/-- Python truthiness of an optional string. -/
def py_truthy : Option String → Bool
  | none => false
  | some s => !(s == "")

/-- The JSON body of a 200 response to `POST /v1/models/{model}/generate`:
only the `job_set_id` / `id` fields are read by the adapter. -/
structure StartResponse where
  status_code : ℕ
  text : String
  job_set_id : Option String
  id : Option String
  deriving Repr, DecidableEq

/-- Outcome of the HTTP POST in `start_generation`: either a response or an
`httpx.RequestError` (transport failure). -/
inductive StartHttp where
  | response (r : StartResponse)
  | requestError (msg : String)
  deriving Repr, DecidableEq

/-- One entry of the raw `results` array of the provider's job-set body. -/
structure RawResult where
  type : Option String
  min_url : Option String
  raw_url : Option String
  thumbnail_url : Option String
  url : Option String
  deriving Repr, DecidableEq

/-- The raw job-set body: `status` (`data.get("status", "")`) and the
`results` / `outputs` arrays. -/
structure RawJobSet where
  status : String
  results : List RawResult
  outputs : List RawResult
  deriving Repr, DecidableEq

/-- Outcome of the HTTP GET in `get_job_set`. -/
structure JobSetResponse where
  status_code : ℕ
  text : String
  body : RawJobSet
  deriving Repr, DecidableEq

inductive GetHttp where
  | response (r : JobSetResponse)
  | requestError (msg : String)
  deriving Repr, DecidableEq

/-- One normalized result entry (`type` defaults to `"image"`; URL fields
fall back through `thumbnail_url` / `url`). -/
structure NormalizedResult where
  type : String
  min_url : Option String
  raw_url : Option String
  deriving Repr, DecidableEq

/-- The adapter's normalized job set. -/
structure NormalizedJobSet where
  status : String
  results : List NormalizedResult
  deriving Repr, DecidableEq

/-- The `status_map` dictionary of `_normalize_job_set`, with its
`.get(status, "queued")` default for unknown labels. -/
def status_map (status : String) : String :=
  if status = "queued" then "queued"
  else if status = "pending" then "queued"
  else if status = "processing" then "processing"
  else if status = "running" then "processing"
  else if status = "in_progress" then "processing"
  else if status = "completed" then "completed"
  else if status = "succeeded" then "completed"
  else if status = "success" then "completed"
  else if status = "failed" then "failed"
  else if status = "error" then "failed"
  else "queued"

/-- `HiggsfieldProvider._normalize_job_set`: lowercase the upstream status,
collapse it through `status_map`, and extract results only on
`"completed"` (`results` falling back to `outputs` by Python `or` on
lists, where an empty list is falsy). -/
def normalize_job_set (data : RawJobSet) : NormalizedJobSet :=
  let normalized_status := status_map data.status.toLower
  let raw_results := if data.results = [] then data.outputs else data.results
  let results :=
    if normalized_status = "completed" then
      raw_results.map (fun r =>
        { type := r.type.getD "image"
          min_url := py_or (py_or r.min_url r.thumbnail_url) r.url
          raw_url := py_or r.raw_url r.url })
    else []
  { status := normalized_status, results := results }

/-- `HiggsfieldProvider.start_generation`: HTTP status classification and
job-set-id extraction (lines 71-105 of the source). -/
def start_generation (h : StartHttp) : Except ProviderError String :=
  match h with
  | .requestError m =>
      .error ⟨"Network error: " ++ m, "NETWORK_ERROR", true⟩
  | .response r =>
      if r.status_code = 429 then
        .error (RateLimitError "Rate limited by provider")
      else if r.status_code = 400 then
        .error (InvalidParamsError ("Invalid params: " ++ r.text))
      else if 500 ≤ r.status_code then
        .error ⟨"Provider server error: " ++ toString r.status_code,
                "PROVIDER_SERVER_ERROR", true⟩
      else if r.status_code ≠ 200 then
        .error ⟨"Provider error: " ++ toString r.status_code ++ " - " ++ r.text,
                "PROVIDER_ERROR", false⟩
      else
        let j := py_or r.job_set_id r.id
        if py_truthy j then .ok (j.getD "")
        else .error ⟨"No job_set_id in response", "INVALID_RESPONSE", false⟩

/-- `HiggsfieldProvider.get_job_set`: HTTP status classification and
normalization (lines 126-154 of the source). -/
def get_job_set (h : GetHttp) : Except ProviderError NormalizedJobSet :=
  match h with
  | .requestError m =>
      .error ⟨"Network error: " ++ m, "NETWORK_ERROR", true⟩
  | .response r =>
      if r.status_code = 429 then
        .error (RateLimitError "Rate limited by provider")
      else if 500 ≤ r.status_code then
        .error ⟨"Provider server error: " ++ toString r.status_code,
                "PROVIDER_SERVER_ERROR", true⟩
      else if r.status_code = 404 then
        .error ⟨"Job set not found", "JOB_NOT_FOUND", false⟩
      else if r.status_code ≠ 200 then
        .error ⟨"Provider error: " ++ toString r.status_code ++ " - " ++ r.text,
                "PROVIDER_ERROR", false⟩
      else
        .ok (normalize_job_set r.body)

/-- Code of the typed error raised, if any. -/
def errCode {α : Type} : Except ProviderError α → Option String
  | .error e => some e.code
  | .ok _ => none

/-- Retryable flag of the typed error raised, if any. -/
def errRetryable {α : Type} : Except ProviderError α → Option Bool
  | .error e => some e.retryable
  | .ok _ => none

/-- C5 (counterexample): an HTTP 400 on `get_job_set` raises the generic
`PROVIDER_ERROR`, not `INVALID_PARAMS` as the claim asserts for every HTTP
outcome of both calls (`get_job_set` has no dedicated 400 branch). -/
theorem C5_classification_counterexample :
    errCode (get_job_set (GetHttp.response ⟨400, "bad request", ⟨"", [], []⟩⟩)) =
        some "PROVIDER_ERROR" ∧
      errCode (get_job_set (GetHttp.response ⟨400, "bad request", ⟨"", [], []⟩⟩)) ≠
        some "INVALID_PARAMS" := by
  refine ⟨by norm_num [get_job_set, errCode], ?p⟩
  norm_num [get_job_set, errCode]
  decide

/-- C5 (amended): the adapter's HTTP classification, with the single
amendment that a 400 on `get_job_set` raises `PROVIDER_ERROR`
(non-retryable) rather than `INVALID_PARAMS`: 429 raises `RATE_LIMITED`
retryable on both calls; 400 on `start_generation` raises `INVALID_PARAMS`
non-retryable; 5xx raises `PROVIDER_SERVER_ERROR` retryable on both calls;
404 on `get_job_set` raises `JOB_NOT_FOUND` non-retryable; a transport
failure raises `NETWORK_ERROR` retryable on both calls; a 200 response to
`start_generation` lacking a (truthy) job-set id raises `INVALID_RESPONSE`
non-retryable. -/
theorem provider_error_classification (sr : StartResponse) (gr : JobSetResponse)
    (m : String) :
    (sr.status_code = 429 →
      start_generation (StartHttp.response sr) =
        Except.error ⟨"Rate limited by provider", "RATE_LIMITED", true⟩) ∧
    (gr.status_code = 429 →
      get_job_set (GetHttp.response gr) =
        Except.error ⟨"Rate limited by provider", "RATE_LIMITED", true⟩) ∧
    (sr.status_code = 400 →
      errCode (start_generation (StartHttp.response sr)) = some "INVALID_PARAMS" ∧
      errRetryable (start_generation (StartHttp.response sr)) = some false) ∧
    (gr.status_code = 400 →
      errCode (get_job_set (GetHttp.response gr)) = some "PROVIDER_ERROR" ∧
      errRetryable (get_job_set (GetHttp.response gr)) = some false) ∧
    (500 ≤ sr.status_code →
      errCode (start_generation (StartHttp.response sr)) = some "PROVIDER_SERVER_ERROR" ∧
      errRetryable (start_generation (StartHttp.response sr)) = some true) ∧
    (500 ≤ gr.status_code →
      errCode (get_job_set (GetHttp.response gr)) = some "PROVIDER_SERVER_ERROR" ∧
      errRetryable (get_job_set (GetHttp.response gr)) = some true) ∧
    (gr.status_code = 404 →
      errCode (get_job_set (GetHttp.response gr)) = some "JOB_NOT_FOUND" ∧
      errRetryable (get_job_set (GetHttp.response gr)) = some false) ∧
    (errCode (start_generation (StartHttp.requestError m)) = some "NETWORK_ERROR" ∧
      errRetryable (start_generation (StartHttp.requestError m)) = some true) ∧
    (errCode (get_job_set (GetHttp.requestError m)) = some "NETWORK_ERROR" ∧
      errRetryable (get_job_set (GetHttp.requestError m)) = some true) ∧
    (sr.status_code = 200 → py_truthy (py_or sr.job_set_id sr.id) = false →
      errCode (start_generation (StartHttp.response sr)) = some "INVALID_RESPONSE" ∧
      errRetryable (start_generation (StartHttp.response sr)) = some false) := by
  refine ⟨?p429s, ?p429g, ?p400s, ?p400g, ?p5s, ?p5g, ?p404g, ?pnets, ?pnetg, ?p200s⟩
  · intro h
    simp [start_generation, h, RateLimitError]
  · intro h
    simp [get_job_set, h, RateLimitError]
  · intro h
    simp [start_generation, h, InvalidParamsError, errCode, errRetryable]
  · intro h
    simp [get_job_set, h, errCode, errRetryable]
  · intro h
    have h1 : sr.status_code ≠ 429 := by omega
    have h2 : sr.status_code ≠ 400 := by omega
    simp [start_generation, h, h1, h2, errCode, errRetryable]
  · intro h
    have h1 : gr.status_code ≠ 429 := by omega
    simp [get_job_set, h, h1, errCode, errRetryable]
  · intro h
    have h1 : ¬ (500 ≤ gr.status_code) := by omega
    simp [get_job_set, h, h1, errCode, errRetryable]
  · exact ⟨rfl, rfl⟩
  · exact ⟨rfl, rfl⟩
  · intro h ht
    simp [start_generation, h, ht, errCode, errRetryable]

/-- Witness for `provider_error_classification`: a 400 start response, a 404
get response, and a transport failure. -/
theorem provider_error_classification_witness :
    ((400 : ℕ) = 400 ∧ (404 : ℕ) = 404) ∧
      (errCode (start_generation (StartHttp.response ⟨400, "t", none, none⟩)) =
          some "INVALID_PARAMS" ∧
        errRetryable (start_generation (StartHttp.response ⟨400, "t", none, none⟩)) =
          some false) ∧
      (errCode (get_job_set (GetHttp.response ⟨404, "t", ⟨"", [], []⟩⟩)) =
          some "JOB_NOT_FOUND" ∧
        errRetryable (get_job_set (GetHttp.response ⟨404, "t", ⟨"", [], []⟩⟩)) =
          some false) :=
  ⟨⟨rfl, rfl⟩,
    (provider_error_classification ⟨400, "t", none, none⟩ ⟨404, "t", ⟨"", [], []⟩⟩ "x").2.2.1 rfl,
    (provider_error_classification ⟨400, "t", none, none⟩
        ⟨404, "t", ⟨"", [], []⟩⟩ "x").2.2.2.2.2.2.1 rfl⟩

/-! ## Domain model (`app/domain/states.py`, `app/domain/models.py`) -/

/-- `JobStatus` enumeration. -/
inductive JobStatus where
  | pending
  | running
  | succeeded
  | failed
  | timeout
  | canceled
  deriving Repr, DecidableEq

/-- `TERMINAL_STATUSES` from `app/domain/states.py`. -/
def TERMINAL_STATUSES : List JobStatus :=
  [JobStatus.succeeded, JobStatus.failed, JobStatus.timeout, JobStatus.canceled]

/-- The `output_urls` mapping stored on success
(`{"min_url": ..., "raw_url": ..., "type": ...}`). -/
structure OutputUrls where
  min_url : Option String
  raw_url : Option String
  type : Option String
  deriving Repr, DecidableEq

/-- The `generation_jobs` row (fields the core reads or writes; instants are
rationals, ids are naturals). -/
structure GenerationJob where
  id : ℕ
  user_id : ℕ
  option_id : ℕ
  idempotency_key : String
  status : JobStatus
  provider_job_set_id : Option String
  progress : Option ℕ
  attempts : ℕ
  last_error_code : Option String
  last_error_message : Option String
  last_polled_at : Option ℚ
  next_poll_at : Option ℚ
  timeout_at : Option ℚ
  started_at : Option ℚ
  finished_at : Option ℚ
  output_urls : Option OutputUrls
  trace_id : String
  deriving Repr, DecidableEq

/-- The `options` row (source class `Option`; renamed, the name is taken by
Lean's `Option`). -/
structure OptionRow where
  id : ℕ
  tool_type : String
  model_key : String
  enhanced_prompt : String
  style_id : Option String
  deriving Repr, DecidableEq

/-- The configured poller settings (`app/core/config.py`). -/
structure Settings where
  POLL_MIN_INTERVAL_MS : ℕ
  POLL_MAX_INTERVAL_MS : ℕ
  POLL_JITTER : ℚ
  T2I_TIMEOUT_S : ℕ
  I2V_TIMEOUT_S : ℕ
  T2V_TIMEOUT_S : ℕ
  deriving Repr, DecidableEq

/-- The configured defaults. -/
def defaultSettings : Settings :=
  { POLL_MIN_INTERVAL_MS := 1000
    POLL_MAX_INTERVAL_MS := 30000
    POLL_JITTER := 1 / 5
    T2I_TIMEOUT_S := 180
    I2V_TIMEOUT_S := 1200
    T2V_TIMEOUT_S := 1200 }

/-- A `job.updated` event published on the SSE broker. -/
structure SSEEvent where
  channel : String
  type : String
  job_id : ℕ
  status : JobStatus
  result : Option OutputUrls
  error : Option (String × String)
  deriving Repr, DecidableEq

/-! ## The poller tick (`app/workers/tasks.py`, `_poll_generation_async`) -/

/-- Everything one tick consumes besides the loaded row: the `Option` row
`db.get` would return, the clock, the provider's two possible responses,
the normalized uniform draw `u ∈ [-1, 1]` used by `next_interval_ms`, and
the settings. -/
structure TickEnv where
  option_row : Option OptionRow
  now : ℚ
  startRes : Except ProviderError String
  pollRes : Except ProviderError NormalizedJobSet
  u : ℚ
  cfg : Settings

/-- Observable outcome of one tick: the job row after the tick (`none` iff
the job id was unknown), whether a commit happened, which provider calls
were made, the published events, the incremented metrics (rendered as
`name:label:...` strings) and the countdown of the re-enqueued tick. -/
structure TickResult where
  row : Option GenerationJob
  committed : Bool
  calledStart : Bool
  calledPoll : Bool
  events : List SSEEvent
  metrics : List String
  requeue_delay : Option ℤ
  deriving Repr

/-- `job.status in [s.value for s in TERMINAL_STATUSES]`. -/
def job_is_terminal (j : GenerationJob) : Bool :=
  decide (j.status ∈ TERMINAL_STATUSES)

/-- `job.timeout_at and now >= job.timeout_at`. -/
def timed_out (j : GenerationJob) (now : ℚ) : Bool :=
  match j.timeout_at with
  | some t => decide (t ≤ now)
  | none => false

/-- The SSE channel `chat:<user_id>`. -/
def chat_channel (j : GenerationJob) : String :=
  "chat:" ++ toString j.user_id

/-- Lines 86-110: the `TIMEOUT` transition — commit, timeout metric (only
if the option row still exists), `job.updated` event, no requeue. -/
def timeout_transition (j : GenerationJob) (env : TickEnv) : TickResult :=
  let j' := { j with status := JobStatus.timeout, finished_at := some env.now,
                     last_error_code := some "TIMEOUT",
                     last_error_message := some "Job exceeded timeout" }
  { row := some j'
    committed := true
    calledStart := false
    calledPoll := false
    events := [{ channel := chat_channel j', type := "job.updated", job_id := j'.id,
                 status := j'.status, result := none, error := none }]
    metrics :=
      match env.option_row with
      | some o => ["jobs_timeout_total:" ++ o.tool_type ++ ":" ++ o.model_key]
      | none => []
    requeue_delay := none }

/-- Lines 112-121: the option row is gone — fail the job with
`OPTION_NOT_FOUND`; no event, no metric, no requeue. -/
def option_missing_transition (j : GenerationJob) (now : ℚ) : TickResult :=
  let j' := { j with status := JobStatus.failed, finished_at := some now,
                     last_error_code := some "OPTION_NOT_FOUND",
                     last_error_message := some "Associated option not found" }
  { row := some j'
    committed := true
    calledStart := false
    calledPoll := false
    events := []
    metrics := []
    requeue_delay := none }

/-- Lines 272-351: the three `except` handlers.  `jm` is the in-memory job
at the moment the exception is raised (in the start branch it already
carries the pre-call mutations).  `RateLimitError` is matched first (its
code is always `RATE_LIMITED`); a retryable `ProviderError` reschedules
with plain backoff; a non-retryable one fails the job. -/
def handle_provider_error (jm : GenerationJob) (opt : OptionRow) (now : ℚ)
    (e : ProviderError) (u : ℚ) (cfg : Settings) : TickResult :=
  if e.code = "RATE_LIMITED" then
    let backoff_ms := next_interval_ms (jm.attempts + 5) cfg.POLL_MIN_INTERVAL_MS
      cfg.POLL_MAX_INTERVAL_MS cfg.POLL_JITTER u
    let j' := { jm with last_error_code := some e.code,
                        last_error_message := some e.message,
                        next_poll_at := some (now + (backoff_ms : ℚ) / 1000) }
    { row := some j'
      committed := true
      calledStart := false
      calledPoll := false
      events := []
      metrics := ["provider_errors_total:rate_limit"]
      requeue_delay := some (delay_seconds_from_ms backoff_ms) }
  else if e.retryable then
    let backoff_ms := next_interval_ms jm.attempts cfg.POLL_MIN_INTERVAL_MS
      cfg.POLL_MAX_INTERVAL_MS cfg.POLL_JITTER u
    let j' := { jm with last_error_code := some e.code,
                        last_error_message := some e.message,
                        next_poll_at := some (now + (backoff_ms : ℚ) / 1000) }
    { row := some j'
      committed := true
      calledStart := false
      calledPoll := false
      events := []
      metrics := ["provider_errors_total:" ++ e.code]
      requeue_delay := some (delay_seconds_from_ms backoff_ms) }
  else
    let j' := { jm with last_error_code := some e.code,
                        last_error_message := some e.message,
                        status := JobStatus.failed, finished_at := some now }
    { row := some j'
      committed := true
      calledStart := false
      calledPoll := false
      events := [{ channel := chat_channel j', type := "job.updated", job_id := j'.id,
                   status := j'.status, result := none,
                   error := some (e.code, e.message) }]
      metrics := ["jobs_failed_total:" ++ opt.tool_type ++ ":" ++ opt.model_key ++
                  ":" ++ e.code]
      requeue_delay := none }

/-- Lines 123-158: the start branch.  The in-memory row is mutated to
`RUNNING` / `started_at = now` / `attempts += 1` *before* `StartGeneration`
is awaited; on success the provider id and `next_poll_at` are stored and
the tick re-enqueued, on error the handlers commit the mutated row. -/
def start_branch (j : GenerationJob) (opt : OptionRow) (env : TickEnv) : TickResult :=
  let j1 := { j with status := JobStatus.running, started_at := some env.now,
                     attempts := j.attempts + 1 }
  match env.startRes with
  | Except.ok psid =>
      let ims := next_interval_ms 0 env.cfg.POLL_MIN_INTERVAL_MS
        env.cfg.POLL_MAX_INTERVAL_MS env.cfg.POLL_JITTER env.u
      let npa : ℚ := env.now + (ims : ℚ) / 1000
      let j2 := { j1 with provider_job_set_id := some psid, next_poll_at := some npa }
      { row := some j2
        committed := true
        calledStart := true
        calledPoll := false
        events := []
        metrics := []
        requeue_delay := some (delay_seconds_from_delta (npa - env.now)) }
  | Except.error e =>
      { handle_provider_error j1 opt env.now e env.u env.cfg with calledStart := true }

/-- Lines 173-270: the poll branch (`GetJobSet` plus the dispatch on the
normalized status). -/
def poll_branch (j : GenerationJob) (opt : OptionRow) (env : TickEnv) : TickResult :=
  match env.pollRes with
  | Except.error e =>
      { handle_provider_error j opt env.now e env.u env.cfg with calledPoll := true }
  | Except.ok js =>
      let j1 := { j with last_polled_at := some env.now, attempts := j.attempts + 1 }
      let pollMetric := "provider_polls_total:" ++ opt.model_key ++ ":" ++ js.status
      if js.status = "completed" then
        let j2base := { j1 with status := JobStatus.succeeded,
                                finished_at := some env.now, progress := some 100 }
        let j2 :=
          match js.results with
          | [] => j2base
          | r :: _ =>
              { j2base with output_urls := some { min_url := r.min_url,
                                                  raw_url := r.raw_url,
                                                  type := some r.type } }
        { row := some j2
          committed := true
          calledStart := false
          calledPoll := true
          events := [{ channel := chat_channel j2, type := "job.updated",
                       job_id := j2.id, status := j2.status,
                       result := j2.output_urls, error := none }]
          metrics := [pollMetric,
                      "jobs_succeeded_total:" ++ opt.tool_type ++ ":" ++ opt.model_key]
          requeue_delay := none }
      else if js.status = "failed" then
        let j2 := { j1 with status := JobStatus.failed, finished_at := some env.now,
                            last_error_code := some "PROVIDER_FAILED",
                            last_error_message := some "Provider reported failure" }
        { row := some j2
          committed := true
          calledStart := false
          calledPoll := true
          events := [{ channel := chat_channel j2, type := "job.updated",
                       job_id := j2.id, status := j2.status, result := none,
                       error := some ("PROVIDER_FAILED", "Provider reported failure") }]
          metrics := [pollMetric,
                      "jobs_failed_total:" ++ opt.tool_type ++ ":" ++ opt.model_key ++
                      ":PROVIDER_FAILED"]
          requeue_delay := none }
      else
        let interval_ms := next_interval_ms j1.attempts env.cfg.POLL_MIN_INTERVAL_MS
          env.cfg.POLL_MAX_INTERVAL_MS env.cfg.POLL_JITTER env.u
        let j2 := { j1 with next_poll_at := some (env.now + (interval_ms : ℚ) / 1000) }
        { row := some j2
          committed := true
          calledStart := false
          calledPoll := true
          events := []
          metrics := [pollMetric]
          requeue_delay := some (delay_seconds_from_ms interval_ms) }

/-- `_poll_generation_async`: one tick of the state machine, in the exact
order of the source — missing row, terminal check, timeout check, option
load, start / wait / poll. -/
def poll_generation_async (job_loaded : Option GenerationJob) (env : TickEnv) :
    TickResult :=
  match job_loaded with
  | none =>
      { row := none, committed := false, calledStart := false, calledPoll := false,
        events := [], metrics := [], requeue_delay := none }
  | some j =>
      if job_is_terminal j then
        { row := some j, committed := false, calledStart := false, calledPoll := false,
          events := [], metrics := [], requeue_delay := none }
      else if timed_out j env.now then
        timeout_transition j env
      else
        match env.option_row with
        | none => option_missing_transition j env.now
        | some opt =>
            match j.provider_job_set_id with
            | none => start_branch j opt env
            | some _ =>
                match j.next_poll_at with
                | some t =>
                    if env.now < t then
                      { row := some j, committed := false, calledStart := false,
                        calledPoll := false, events := [], metrics := [],
                        requeue_delay := some (delay_seconds_from_delta (t - env.now)) }
                    else poll_branch j opt env
                | none => poll_branch j opt env

/-- The job row as left behind by a tick (unchanged when nothing was
committed). -/
def apply_tick (j : GenerationJob) (env : TickEnv) : GenerationJob :=
  (poll_generation_async (some j) env).row.getD j

theorem tick_eq_of_terminal (j : GenerationJob) (env : TickEnv)
    (hb : job_is_terminal j = true) :
    poll_generation_async (some j) env =
      { row := some j, committed := false, calledStart := false, calledPoll := false,
        events := [], metrics := [], requeue_delay := none } := by
  simp [poll_generation_async, hb]

theorem tick_eq_timeout (j : GenerationJob) (env : TickEnv)
    (hb1 : job_is_terminal j = false) (hb2 : timed_out j env.now = true) :
    poll_generation_async (some j) env = timeout_transition j env := by
  simp [poll_generation_async, hb1, hb2]

theorem tick_eq_option_missing (j : GenerationJob) (env : TickEnv)
    (hb1 : job_is_terminal j = false) (hb2 : timed_out j env.now = false)
    (hopt : env.option_row = none) :
    poll_generation_async (some j) env = option_missing_transition j env.now := by
  simp [poll_generation_async, hb1, hb2, hopt]

theorem tick_eq_start (j : GenerationJob) (opt : OptionRow) (env : TickEnv)
    (hb1 : job_is_terminal j = false) (hb2 : timed_out j env.now = false)
    (hopt : env.option_row = some opt) (hpid : j.provider_job_set_id = none) :
    poll_generation_async (some j) env = start_branch j opt env := by
  simp [poll_generation_async, hb1, hb2, hopt, hpid]

theorem job_is_terminal_false_of_not_mem {j : GenerationJob}
    (hterm : j.status ∉ TERMINAL_STATUSES) : job_is_terminal j = false := by
  simp [job_is_terminal, hterm]

/-- C2: timeout dominance — a tick on a non-terminal job whose non-null
`timeout_at` has been reached commits `status = TIMEOUT`,
`finished_at = now`, `last_error_code = "TIMEOUT"`, whatever the pending
provider responses are, and makes no provider call. -/
theorem timeout_dominance (j : GenerationJob) (env : TickEnv) (t : ℚ)
    (hterm : j.status ∉ TERMINAL_STATUSES)
    (ht : j.timeout_at = some t) (hle : t ≤ env.now) :
    (∃ j', (poll_generation_async (some j) env).row = some j' ∧
        j'.status = JobStatus.timeout ∧ j'.finished_at = some env.now ∧
        j'.last_error_code = some "TIMEOUT") ∧
      (poll_generation_async (some j) env).calledStart = false ∧
      (poll_generation_async (some j) env).calledPoll = false ∧
      (poll_generation_async (some j) env).committed = true := by
  have hb1 : job_is_terminal j = false := job_is_terminal_false_of_not_mem hterm
  have hb2 : timed_out j env.now = true := by
    simp [timed_out, ht]
    exact hle
  rw [tick_eq_timeout j env hb1 hb2]
  exact ⟨⟨_, rfl, rfl, rfl, rfl⟩, rfl, rfl, rfl⟩

/-- C3: terminal immutability — a tick on a terminal job is a pure no-op
(row returned unchanged, nothing committed, no provider call, no event, no
metric, no requeue), so any sequence of further ticks leaves the row
identical. -/
theorem terminal_immutability (j : GenerationJob) (env : TickEnv)
    (hterm : j.status ∈ TERMINAL_STATUSES) :
    (poll_generation_async (some j) env).row = some j ∧
      (poll_generation_async (some j) env).committed = false ∧
      (poll_generation_async (some j) env).calledStart = false ∧
      (poll_generation_async (some j) env).calledPoll = false ∧
      (poll_generation_async (some j) env).events = [] ∧
      (poll_generation_async (some j) env).metrics = [] ∧
      (poll_generation_async (some j) env).requeue_delay = none ∧
      ∀ envs : List TickEnv, envs.foldl apply_tick j = j := by
  have hb : job_is_terminal j = true := by simp [job_is_terminal, hterm]
  have hone : ∀ env' : TickEnv, apply_tick j env' = j := by
    intro env'
    rw [apply_tick, tick_eq_of_terminal j env' hb]
    rfl
  rw [tick_eq_of_terminal j env hb]
  refine ⟨rfl, rfl, rfl, rfl, rfl, rfl, rfl, ?hfold⟩
  intro envs
  induction envs with
  | nil => rfl
  | cons e es ih =>
      rw [List.foldl_cons, hone e]
      exact ih

/-- C10: a tick on a live, non-timed-out job whose `Option` row has been
deleted fails the job with the out-of-taxonomy code `OPTION_NOT_FOUND`,
publishing no event and incrementing no metric. -/
theorem option_not_found_failure (j : GenerationJob) (env : TickEnv)
    (hterm : j.status ∉ TERMINAL_STATUSES)
    (hto : timed_out j env.now = false)
    (hopt : env.option_row = none) :
    (∃ j', (poll_generation_async (some j) env).row = some j' ∧
        j'.status = JobStatus.failed ∧ j'.finished_at = some env.now ∧
        j'.last_error_code = some "OPTION_NOT_FOUND") ∧
      (poll_generation_async (some j) env).events = [] ∧
      (poll_generation_async (some j) env).metrics = [] ∧
      (poll_generation_async (some j) env).calledStart = false ∧
      (poll_generation_async (some j) env).calledPoll = false := by
  have hb1 : job_is_terminal j = false := job_is_terminal_false_of_not_mem hterm
  rw [tick_eq_option_missing j env hb1 hto hopt]
  exact ⟨⟨_, rfl, rfl, rfl, rfl⟩, rfl, rfl, rfl, rfl⟩

/-- C4 (amended): on a `PENDING` job with null `provider_job_set_id` the
tick always commits `status = RUNNING`, `started_at = now` and
`attempts + 1` — these in-memory mutations are made *before*
`StartGeneration` is awaited, and the `except` handlers commit them too.
On success the provider id is stored; on a retryable failure the persisted
row keeps `provider_job_set_id` null, records `last_error_code/message`,
and the tick is rescheduled — the row is **not** left as unchanged
`PENDING` as the claim states. -/
theorem start_transition (j : GenerationJob) (opt : OptionRow) (env : TickEnv)
    (hst : j.status = JobStatus.pending)
    (hpid : j.provider_job_set_id = none)
    (hto : timed_out j env.now = false)
    (hopt : env.option_row = some opt) :
    (∀ psid, env.startRes = Except.ok psid →
      ∃ j', (poll_generation_async (some j) env).row = some j' ∧
        j'.status = JobStatus.running ∧ j'.started_at = some env.now ∧
        j'.attempts = j.attempts + 1 ∧ j'.provider_job_set_id = some psid ∧
        (poll_generation_async (some j) env).calledStart = true ∧
        (poll_generation_async (some j) env).committed = true ∧
        ((poll_generation_async (some j) env).requeue_delay).isSome = true) ∧
    (∀ e, env.startRes = Except.error e → e.retryable = true →
      ∃ j', (poll_generation_async (some j) env).row = some j' ∧
        j'.status = JobStatus.running ∧ j'.started_at = some env.now ∧
        j'.attempts = j.attempts + 1 ∧ j'.provider_job_set_id = none ∧
        j'.last_error_code = some e.code ∧ j'.last_error_message = some e.message ∧
        (poll_generation_async (some j) env).calledStart = true ∧
        (poll_generation_async (some j) env).committed = true ∧
        ((poll_generation_async (some j) env).requeue_delay).isSome = true) := by
  have hb1 : job_is_terminal j = false := by
    apply job_is_terminal_false_of_not_mem
    rw [hst]
    decide
  rw [tick_eq_start j opt env hb1 hto hopt hpid]
  constructor
  · intro psid hok
    simp [start_branch, hok]
  · intro e herr hret
    simp only [start_branch, herr]
    by_cases hc : e.code = "RATE_LIMITED"
    · simp [handle_provider_error, if_pos hc, hpid]
    · simp [handle_provider_error, if_neg hc, hret, hpid]

/-! ## Concrete fixtures for counterexamples and witnesses -/

/-- A concrete option row. -/
def cOpt : OptionRow :=
  { id := 3, tool_type := "text_to_image", model_key := "model-x",
    enhanced_prompt := "a prompt", style_id := none }

/-- A freshly created job: `PENDING`, no provider id, `attempts = 0`,
`timeout_at = 100`. -/
def cJob : GenerationJob :=
  { id := 1, user_id := 2, option_id := 3, idempotency_key := "K1",
    status := JobStatus.pending, provider_job_set_id := none, progress := none,
    attempts := 0, last_error_code := none, last_error_message := none,
    last_polled_at := none, next_poll_at := some 0, timeout_at := some 100,
    started_at := none, finished_at := none, output_urls := none, trace_id := "T" }

/-- A tick at `now = 0` whose `StartGeneration` is answered with a 429
(`RateLimitError`, retryable). -/
def cEnvRateLimit : TickEnv :=
  { option_row := some cOpt, now := 0,
    startRes := Except.error (RateLimitError "Rate limited by provider"),
    pollRes := Except.ok { status := "processing", results := [] },
    u := 0, cfg := defaultSettings }

/-- A tick at `now = 0` whose `StartGeneration` succeeds with id `set-A`. -/
def cEnvOk : TickEnv :=
  { option_row := some cOpt, now := 0,
    startRes := Except.ok "set-A",
    pollRes := Except.ok { status := "processing", results := [] },
    u := 0, cfg := defaultSettings }

/-- A tick arriving at `now = 100`, the timeout deadline of `cJob`. -/
def cEnvTimeout : TickEnv :=
  { option_row := some cOpt, now := 100,
    startRes := Except.ok "set-A",
    pollRes := Except.ok { status := "processing", results := [] },
    u := 0, cfg := defaultSettings }

/-- A tick at `now = 0` for a job whose option row has been deleted. -/
def cEnvNoOpt : TickEnv :=
  { option_row := none, now := 0,
    startRes := Except.ok "set-A",
    pollRes := Except.ok { status := "processing", results := [] },
    u := 0, cfg := defaultSettings }

/-- C4 (counterexample): deliver a tick to the fresh `PENDING` job `cJob`
while `StartGeneration` fails with the retryable `RATE_LIMITED` error.  The
persisted row has `status = RUNNING` (not `PENDING`), `started_at = now`
(not null) and `attempts = 1` (not unchanged): the pre-call in-memory
mutations are committed by the rate-limit handler. -/
theorem C4_start_atomicity_counterexample :
    cJob.status = JobStatus.pending ∧ cJob.provider_job_set_id = none ∧
      cJob.attempts = 0 ∧ cJob.started_at = none ∧
      (match (poll_generation_async (some cJob) cEnvRateLimit).row with
        | some j' =>
            j'.status = JobStatus.running ∧ j'.status ≠ JobStatus.pending ∧
              j'.attempts = 1 ∧ j'.started_at = some 0 ∧
              j'.provider_job_set_id = none ∧
              j'.last_error_code = some "RATE_LIMITED"
        | none => False) := by
  refine ⟨rfl, rfl, rfl, rfl, ?p⟩
  have hb1 : job_is_terminal cJob = false := by decide
  have hb2 : timed_out cJob cEnvRateLimit.now = false := by
    norm_num [timed_out, cJob, cEnvRateLimit]
  rw [tick_eq_start cJob cOpt cEnvRateLimit hb1 hb2 rfl rfl]
  simp [start_branch, cEnvRateLimit, handle_provider_error, RateLimitError, cJob]

/-- Witness for `timeout_dominance`: the fresh job at its deadline. -/
theorem timeout_dominance_witness :
    (cJob.status ∉ TERMINAL_STATUSES ∧ cJob.timeout_at = some 100 ∧
        (100 : ℚ) ≤ cEnvTimeout.now) ∧
      ((∃ j', (poll_generation_async (some cJob) cEnvTimeout).row = some j' ∧
          j'.status = JobStatus.timeout ∧ j'.finished_at = some cEnvTimeout.now ∧
          j'.last_error_code = some "TIMEOUT") ∧
        (poll_generation_async (some cJob) cEnvTimeout).calledStart = false ∧
        (poll_generation_async (some cJob) cEnvTimeout).calledPoll = false ∧
        (poll_generation_async (some cJob) cEnvTimeout).committed = true) :=
  ⟨⟨by decide, rfl, by norm_num [cEnvTimeout]⟩,
    timeout_dominance cJob cEnvTimeout 100 (by decide) rfl (by norm_num [cEnvTimeout])⟩

/-- Witness for `terminal_immutability`: a succeeded job. -/
theorem terminal_immutability_witness :
    ({ cJob with status := JobStatus.succeeded }.status ∈ TERMINAL_STATUSES) ∧
      ((poll_generation_async (some { cJob with status := JobStatus.succeeded })
          cEnvTimeout).row = some { cJob with status := JobStatus.succeeded } ∧
        (poll_generation_async (some { cJob with status := JobStatus.succeeded })
          cEnvTimeout).committed = false ∧
        (poll_generation_async (some { cJob with status := JobStatus.succeeded })
          cEnvTimeout).calledStart = false ∧
        (poll_generation_async (some { cJob with status := JobStatus.succeeded })
          cEnvTimeout).calledPoll = false ∧
        (poll_generation_async (some { cJob with status := JobStatus.succeeded })
          cEnvTimeout).events = [] ∧
        (poll_generation_async (some { cJob with status := JobStatus.succeeded })
          cEnvTimeout).metrics = [] ∧
        (poll_generation_async (some { cJob with status := JobStatus.succeeded })
          cEnvTimeout).requeue_delay = none ∧
        ∀ envs : List TickEnv,
          envs.foldl apply_tick { cJob with status := JobStatus.succeeded } =
            { cJob with status := JobStatus.succeeded }) :=
  ⟨by decide,
    terminal_immutability { cJob with status := JobStatus.succeeded } cEnvTimeout
      (by decide)⟩

/-- Witness for `start_transition`: the fresh job with a successful start
(and, vacuously at this input, the error clause). -/
theorem start_transition_witness :
    (cJob.status = JobStatus.pending ∧ cJob.provider_job_set_id = none ∧
        timed_out cJob cEnvOk.now = false ∧ cEnvOk.option_row = some cOpt) ∧
      ((∀ psid, cEnvOk.startRes = Except.ok psid →
        ∃ j', (poll_generation_async (some cJob) cEnvOk).row = some j' ∧
          j'.status = JobStatus.running ∧ j'.started_at = some cEnvOk.now ∧
          j'.attempts = cJob.attempts + 1 ∧ j'.provider_job_set_id = some psid ∧
          (poll_generation_async (some cJob) cEnvOk).calledStart = true ∧
          (poll_generation_async (some cJob) cEnvOk).committed = true ∧
          ((poll_generation_async (some cJob) cEnvOk).requeue_delay).isSome = true) ∧
      (∀ e, cEnvOk.startRes = Except.error e → e.retryable = true →
        ∃ j', (poll_generation_async (some cJob) cEnvOk).row = some j' ∧
          j'.status = JobStatus.running ∧ j'.started_at = some cEnvOk.now ∧
          j'.attempts = cJob.attempts + 1 ∧ j'.provider_job_set_id = none ∧
          j'.last_error_code = some e.code ∧ j'.last_error_message = some e.message ∧
          (poll_generation_async (some cJob) cEnvOk).calledStart = true ∧
          (poll_generation_async (some cJob) cEnvOk).committed = true ∧
          ((poll_generation_async (some cJob) cEnvOk).requeue_delay).isSome = true)) :=
  ⟨⟨rfl, rfl, by norm_num [timed_out, cJob, cEnvOk], rfl⟩,
    start_transition cJob cOpt cEnvOk rfl rfl
      (by norm_num [timed_out, cJob, cEnvOk]) rfl⟩

/-- Witness for `option_not_found_failure`: the fresh job whose option row
is gone. -/
theorem option_not_found_failure_witness :
    (cJob.status ∉ TERMINAL_STATUSES ∧ timed_out cJob cEnvNoOpt.now = false ∧
        cEnvNoOpt.option_row = none) ∧
      ((∃ j', (poll_generation_async (some cJob) cEnvNoOpt).row = some j' ∧
          j'.status = JobStatus.failed ∧ j'.finished_at = some cEnvNoOpt.now ∧
          j'.last_error_code = some "OPTION_NOT_FOUND") ∧
        (poll_generation_async (some cJob) cEnvNoOpt).events = [] ∧
        (poll_generation_async (some cJob) cEnvNoOpt).metrics = [] ∧
        (poll_generation_async (some cJob) cEnvNoOpt).calledStart = false ∧
        (poll_generation_async (some cJob) cEnvNoOpt).calledPoll = false) :=
  ⟨⟨by decide, by norm_num [timed_out, cJob, cEnvNoOpt], rfl⟩,
    option_not_found_failure cJob cEnvNoOpt (by decide)
      (by norm_num [timed_out, cJob, cEnvNoOpt]) rfl⟩

/-! ## Orchestrator (`app/services/orchestrator.py`) and the generate route
(`app/api/routes/jobs.py`, `generate_option`) -/

/-- The relevant slice of the database: job rows and option rows. -/
structure Store where
  jobs : List GenerationJob
  options : List OptionRow
  deriving Repr, DecidableEq

/-- The `WHERE` clause of the idempotency lookup. -/
def job_matches (u o : ℕ) (k : String) (j : GenerationJob) : Bool :=
  decide (j.user_id = u ∧ j.option_id = o ∧ j.idempotency_key = k)

/-- `select(GenerationJob).where(user_id, option_id, idempotency_key)` with
`scalar_one_or_none` — under the unique index at most one row matches. -/
def find_job (s : Store) (u o : ℕ) (k : String) : Option GenerationJob :=
  s.jobs.find? (job_matches u o k)

/-- Number of job rows matching `(user_id, option_id, idempotency_key)`. -/
def match_count (s : Store) (u o : ℕ) (k : String) : ℕ :=
  s.jobs.countP (job_matches u o k)

/-- `Orchestrator._get_timeout_seconds`: tool-type → timeout mapping with
the `T2V` default for unknown tool types. -/
def get_timeout_seconds (cfg : Settings) (tool_type : String) : ℕ :=
  if tool_type = "text_to_image" then cfg.T2I_TIMEOUT_S
  else if tool_type = "text_to_video" then cfg.T2V_TIMEOUT_S
  else if tool_type = "image_to_video" then cfg.I2V_TIMEOUT_S
  else if tool_type = "speak" then cfg.T2I_TIMEOUT_S
  else cfg.T2V_TIMEOUT_S

/-- The row inserted by `Orchestrator.create_job`: `status = PENDING`,
`attempts = 0` (server default), `timeout_at = now + tool timeout`,
`next_poll_at = now`, null provider linkage. -/
def new_job_row (cfg : Settings) (u o : ℕ) (k : String) (now : ℚ) (new_id : ℕ)
    (tr : String) (opt : OptionRow) : GenerationJob :=
  { id := new_id, user_id := u, option_id := o, idempotency_key := k,
    status := JobStatus.pending, provider_job_set_id := none, progress := none,
    attempts := 0, last_error_code := none, last_error_message := none,
    last_polled_at := none, next_poll_at := some now,
    timeout_at := some (now + (get_timeout_seconds cfg opt.tool_type : ℚ)),
    started_at := none, finished_at := none, output_urls := none, trace_id := tr }

/-- Result of `Orchestrator.create_job`: the returned id, the store after
the call, and whether `jobs_created_total` was incremented. -/
structure CreateOutcome where
  job_id : ℕ
  store : Store
  metric_inc : Bool
  deriving Repr, DecidableEq

/-- `Orchestrator.create_job`: return the existing id on an idempotent hit
(no insert, no metric); otherwise require the option, insert the fresh
`PENDING` row and increment the metric.  `ValueError` on a missing option
becomes `Except.error`.  The fresh `id`/`trace_id`/clock reading are
parameters. -/
def create_job (cfg : Settings) (s : Store) (user_id option_id : ℕ)
    (idempotency_key : String) (now : ℚ) (new_id : ℕ) (tr : String) :
    Except String CreateOutcome :=
  match find_job s user_id option_id idempotency_key with
  | some existing_job => Except.ok ⟨existing_job.id, s, false⟩
  | none =>
      match s.options.find? (fun r => decide (r.id = option_id)) with
      | none => Except.error "Option not found"
      | some opt =>
          Except.ok ⟨new_id,
            { s with jobs := s.jobs ++
                [new_job_row cfg user_id option_id idempotency_key now new_id tr opt] },
            true⟩

/-- `create_job` called once per element of `params` (each call's clock
reading, fresh id and trace id), threading the store. -/
def createN (cfg : Settings) (s : Store) (u o : ℕ) (k : String) :
    List (ℚ × ℕ × String) → Except String (List ℕ × Store)
  | [] => Except.ok ([], s)
  | (now, nid, tr) :: rest =>
      match create_job cfg s u o k now nid tr with
      | Except.error e => Except.error e
      | Except.ok out =>
          match createN cfg out.store u o k rest with
          | Except.error e => Except.error e
          | Except.ok (ids, s') => Except.ok (out.job_id :: ids, s')

/-- Observable outcome of `POST /options/{option_id}/generate`: returned
job id, store after commit, the Celery ticks enqueued by the handler, and
the metric flag. -/
structure GenerateOutcome where
  job_id : ℕ
  store : Store
  enqueued : List ℕ
  metric_inc : Bool
  deriving Repr, DecidableEq

/-- `generate_option` (the route body after idempotency-key validation):
404 when the option is unknown, otherwise `create_job`, commit, and then —
unconditionally, on the hit path too — `poll_generation.delay(job_id)`. -/
def generate_option (cfg : Settings) (s : Store) (option_id user_id : ℕ)
    (idempotency_key : String) (now : ℚ) (new_id : ℕ) (tr : String) :
    Except ℕ GenerateOutcome :=
  match s.options.find? (fun r => decide (r.id = option_id)) with
  | none => Except.error 404
  | some _ =>
      match create_job cfg s user_id option_id idempotency_key now new_id tr with
      | Except.error _ => Except.error 500
      | Except.ok out => Except.ok ⟨out.job_id, out.store, [out.job_id], out.metric_inc⟩

theorem create_job_hit (cfg : Settings) (s : Store) (u o : ℕ) (k : String)
    (now : ℚ) (nid : ℕ) (tr : String) (j : GenerationJob)
    (hfind : find_job s u o k = some j) :
    create_job cfg s u o k now nid tr = Except.ok ⟨j.id, s, false⟩ := by
  simp [create_job, hfind]

theorem createN_of_hit (cfg : Settings) (s : Store) (u o : ℕ) (k : String)
    (j : GenerationJob) (hfind : find_job s u o k = some j) :
    ∀ params : List (ℚ × ℕ × String),
      createN cfg s u o k params = Except.ok (List.replicate params.length j.id, s) := by
  intro params
  induction params with
  | nil => rfl
  | cons h rest ih =>
      obtain ⟨now, nid, tr⟩ := h
      simp [createN, create_job_hit cfg s u o k now nid tr j hfind, ih,
        List.replicate_succ]

/-- C1: `create_job` is idempotent — starting from a store with no row for
`(user_id, option_id, idempotency_key)` and an existing option, any
sequence of `N = rest.length + 1 ≥ 1` calls returns the first call's
`job_id` every time, and the store ends with exactly one matching row
(and exactly one new row in total). -/
theorem create_job_idempotent (cfg : Settings) (s : Store) (u o : ℕ) (k : String)
    (t0 : ℚ) (id0 : ℕ) (tr0 : String) (rest : List (ℚ × ℕ × String))
    (opt : OptionRow)
    (hmc : match_count s u o k = 0)
    (hopt : s.options.find? (fun r => decide (r.id = o)) = some opt) :
    ∃ s', createN cfg s u o k ((t0, id0, tr0) :: rest) =
        Except.ok (List.replicate (rest.length + 1) id0, s') ∧
      match_count s' u o k = 1 ∧ s'.jobs.length = s.jobs.length + 1 := by
  have hall : ∀ x ∈ s.jobs, ¬ job_matches u o k x = true := List.countP_eq_zero.mp hmc
  have hfind : find_job s u o k = none := List.find?_eq_none.mpr hall
  set nj := new_job_row cfg u o k t0 id0 tr0 opt with hnj
  have hjm : job_matches u o k nj = true := by simp [job_matches, hnj, new_job_row]
  set s1 : Store := { s with jobs := s.jobs ++ [nj] } with hs1
  have hcj : create_job cfg s u o k t0 id0 tr0 = Except.ok ⟨id0, s1, true⟩ := by
    simp [create_job, hfind, hopt, hs1, hnj]
  have hfind1 : find_job s1 u o k = some nj := by
    show (s.jobs ++ [nj]).find? (job_matches u o k) = some nj
    rw [List.find?_append, show s.jobs.find? (job_matches u o k) = none from hfind]
    simp [List.find?, hjm]
  have hrest := createN_of_hit cfg s1 u o k nj hfind1 rest
  have hnjid : nj.id = id0 := rfl
  refine ⟨s1, ?heq, ?hcount, ?hlen⟩
  · simp [createN, hcj, hrest, hnjid, List.replicate_succ]
  · show (s.jobs ++ [nj]).countP (job_matches u o k) = 1
    rw [List.countP_append, show s.jobs.countP (job_matches u o k) = 0 from hmc]
    simp [List.countP, List.countP.go, hjm]
  · show (s.jobs ++ [nj]).length = s.jobs.length + 1
    simp

/-- C6 (amended): on an idempotent hit, `POST /options/{id}/generate`
returns the existing job's id, inserts no row and increments no metric —
but the handler still unconditionally enqueues one poll tick for the
returned job id. -/
theorem idempotent_hit_frame (cfg : Settings) (s : Store) (u o : ℕ) (k : String)
    (now : ℚ) (nid : ℕ) (tr : String) (j : GenerationJob) (opt : OptionRow)
    (hfind : find_job s u o k = some j)
    (hopt : s.options.find? (fun r => decide (r.id = o)) = some opt) :
    generate_option cfg s o u k now nid tr = Except.ok ⟨j.id, s, [j.id], false⟩ := by
  simp [generate_option, hopt, create_job_hit cfg s u o k now nid tr j hfind]

/-- A store holding the option `cOpt` and the already-existing job `cJob`
for `(user 2, option 3, key K1)`. -/
def cStore : Store :=
  { jobs := [cJob], options := [cOpt] }

/-- C6 (counterexample): an idempotent-hit `POST /options/3/generate`
against `cStore` returns the existing id with no insert and no metric — but
it *does* enqueue a scheduler tick for the job (`enqueued = [1] ≠ []`),
contradicting the claim's "no scheduler tick is enqueued". -/
theorem C6_idempotent_hit_counterexample :
    find_job cStore 2 3 "K1" = some cJob ∧
      generate_option defaultSettings cStore 3 2 "K1" 0 99 "T9" =
        Except.ok ⟨cJob.id, cStore, [cJob.id], false⟩ ∧
      [cJob.id] ≠ ([] : List ℕ) := by
  refine ⟨rfl, rfl, by simp⟩

/-- A store holding only the option `cOpt` and no jobs. -/
def cEmptyStore : Store :=
  { jobs := [], options := [cOpt] }

/-- Witness for `create_job_idempotent`: three calls against an empty job
table. -/
theorem create_job_idempotent_witness :
    (match_count cEmptyStore 2 3 "K1" = 0 ∧
        cEmptyStore.options.find? (fun r => decide (r.id = 3)) = some cOpt) ∧
      ∃ s', createN defaultSettings cEmptyStore 2 3 "K1"
          ((0, 5, "T5") :: [(1, 7, "T7"), (2, 9, "T9")]) =
          Except.ok (List.replicate ([(1, 7, "T7"), ((2 : ℚ), 9, "T9")].length + 1) 5, s') ∧
        match_count s' 2 3 "K1" = 1 ∧
        s'.jobs.length = cEmptyStore.jobs.length + 1 :=
  ⟨⟨rfl, rfl⟩,
    create_job_idempotent defaultSettings cEmptyStore 2 3 "K1"
      0 5 "T5" [(1, 7, "T7"), (2, 9, "T9")] cOpt rfl rfl⟩

/-- Witness for `idempotent_hit_frame` at the concrete store `cStore`. -/
theorem idempotent_hit_frame_witness :
    (find_job cStore 2 3 "K1" = some cJob ∧
        cStore.options.find? (fun r => decide (r.id = 3)) = some cOpt) ∧
      generate_option defaultSettings cStore 3 2 "K1" 0 99 "T9" =
        Except.ok ⟨cJob.id, cStore, [cJob.id], false⟩ :=
  ⟨⟨rfl, rfl⟩,
    idempotent_hit_frame defaultSettings cStore 2 3 "K1" 0 99 "T9" cJob cOpt rfl rfl⟩
